import Mathlib

/-!
Verification of the mongodb-mcp-server tool-execution pipeline, explain
dispatcher, logging subsystem and Atlas access-list helper, as a shallow
embedding of the TypeScript source.  Driver calls and log emissions are
recorded as explicit event traces; external collaborators (the BSON
document type, the EJSON/JSON serializers, the redaction function and the
index-usage classifier) are parameters of the embedding.
-/

namespace MongoMcp

/-- Options handed to `provider.find` in `find.ts`
(`{ projection, limit, sort }`). -/
structure FindOpts (Doc : Type) where
  projection : Option Doc
  limit : Nat
  sort : Option Doc
deriving DecidableEq, Repr

/-- One element of the `deletes` array of the synthesized
`explain { delete ... }` command in `delete-many`
(`{ q: filter || {}, limit: 0 }`). -/
structure DeleteSpec (Doc : Type) where
  q : Doc
  limit : Nat
deriving DecidableEq, Repr

/-- The commands passed to `provider.runCommandWithCheck` in the embedded
source: the synthesized delete explain of `delete-many` and the count
explain of the explain dispatcher.  Both carry the verbosity field of the
enclosing command document. -/
inductive RunCommand (Doc : Type) where
  | explainDelete (collection : String) (deletes : List (DeleteSpec Doc)) (verbosity : String)
  | explainCount (collection : String) (query : Option Doc) (verbosity : String)
deriving DecidableEq, Repr

/-- Driver calls and log emissions recorded, in program order, by the
embedded tool executions.  `indexCheckInvoked` marks the call into
`checkIndexUsage` itself. -/
inductive Event (Doc : Type) where
  | ensureConnected
  | indexCheckInvoked (database collection opKind : String)
  | runCommandWithCheck (database : String) (cmd : RunCommand Doc)
  | findExplain (database collection : String) (filter : Option Doc)
      (opts : FindOpts Doc) (verbosity : String)
  | findToArray (database collection : String) (filter : Option Doc) (opts : FindOpts Doc)
  | aggregateExplain (database collection : String) (pipeline : List Doc) (verbosity : String)
  | aggregateToArray (database collection : String) (pipeline : List Doc)
  | deleteManyCall (database collection : String) (filter : Option Doc)
  | logRecord (level : String) (context : String) (message : String)
deriving DecidableEq, Repr

/-- An event mutates stored data exactly when it is the real
`provider.deleteMany` call; every `runCommandWithCheck` in the embedding
carries an `explain` wrapper, which is read-only. -/
def Event.isMutation {Doc : Type} : Event Doc → Bool
  | .deleteManyCall _ _ _ => true
  | _ => false

/-- The event is a run of an explain (the body of an index-check thunk or
of the explain dispatcher). -/
def Event.isExplain {Doc : Type} : Event Doc → Bool
  | .runCommandWithCheck _ _ => true
  | .findExplain _ _ _ _ _ => true
  | .aggregateExplain _ _ _ _ => true
  | _ => false

/-- The event is the real `deleteMany` driver call. -/
def Event.isDeleteManyCall {Doc : Type} : Event Doc → Bool
  | .deleteManyCall _ _ _ => true
  | _ => false

/-- The event is the call into the index-usage inspector. -/
def Event.isIndexCheckInvoked {Doc : Type} : Event Doc → Bool
  | .indexCheckInvoked _ _ _ => true
  | _ => false

/-- External collaborators of the pipeline: the empty BSON document
(`{}`), the EJSON and JSON serializers, and the index-usage decision rule
applied by the inspector to a returned plan. -/
structure Externals (Doc : Type) where
  emptyDoc : Doc
  ejsonStringify : Doc → String
  jsonStringify : Doc → String
  usesIndex : Doc → Bool

/-- Behaviour of the driver-facing provider: the documents or counts each
real operation returns and the explain documents each explain invocation
produces (`Except` models a throwing driver call). -/
structure Provider (Doc : Type) where
  findResult : String → String → Option Doc → FindOpts Doc → List Doc
  aggregateResult : String → String → List Doc → List Doc
  deleteManyCount : String → String → Option Doc → Nat
  findExplainResult : String → String → Option Doc → FindOpts Doc → Except String Doc
  aggregateExplainResult : String → String → List Doc → Except String Doc
  runCommandResult : String → RunCommand Doc → Except String Doc

/-- The per-deployment configuration read by the tools
(`this.config.indexCheck`). -/
structure UserConfig where
  indexCheck : Bool
deriving DecidableEq, Repr

/-- One text block of a tool response (`{ text, type: "text" }`). -/
structure TextContent where
  text : String
  type : String
deriving DecidableEq, Repr

/-- The response envelope of a tool (`{ content: [...] }`). -/
structure CallToolResult where
  content : List TextContent
deriving DecidableEq, Repr

/-- Warning emitted by the inspector when the winning plan is a collection
scan. -/
def collscanWarningMessage (database collection opKind : String) : String :=
  "Operation " ++ opKind ++ " on " ++ database ++ "." ++ collection ++
    " is not using an index"

/-- Warning emitted by the inspector when the explain thunk itself fails. -/
def indexCheckFailureMessage (database collection opKind errMsg : String) : String :=
  "Index check for " ++ opKind ++ " on " ++ database ++ "." ++ collection ++
    " failed: " ++ errMsg

/-- Modelled from the spec: `checkIndexUsage` is imported from
`src/helpers/indexCheck.ts`, whose source is not part of the snapshot.
Spec section 4.2: the inspector invokes the explain thunk, classifies the
winning plan by the fixed decision rule, and emits one warning-level log
record when no index is used; a failure of the thunk itself is logged at
warning and never aborts the pipeline; the inspector performs no driver
call of its own beyond the thunk. -/
def checkIndexUsage {Doc : Type} (ext : Externals Doc)
    (database collection opKind : String)
    (explainThunk : Unit → List (Event Doc) × Except String Doc) : List (Event Doc) :=
  match explainThunk () with
  | (tr, Except.error e) =>
      tr ++ [Event.logRecord "warning" "indexCheck"
        (indexCheckFailureMessage database collection opKind e)]
  | (tr, Except.ok plan) =>
      if ext.usesIndex plan then tr
      else tr ++ [Event.logRecord "warning" "indexCheck"
        (collscanWarningMessage database collection opKind)]

/-- The explain thunk `DeleteManyTool.execute` passes to `checkIndexUsage`:
it runs `runCommandWithCheck` on the document
`explain: delete collection, deletes: [q: filter or empty, limit: 0],
verbosity: queryPlanner` and nothing else. -/
def deleteManyExplainThunk {Doc : Type} (ext : Externals Doc) (provider : Provider Doc)
    (database collection : String) (filter : Option Doc) :
    Unit → List (Event Doc) × Except String Doc :=
  fun _ =>
    ([Event.runCommandWithCheck database
        (RunCommand.explainDelete collection
          [{ q := filter.getD ext.emptyDoc, limit := 0 }] "queryPlanner")],
     provider.runCommandResult database
        (RunCommand.explainDelete collection
          [{ q := filter.getD ext.emptyDoc, limit := 0 }] "queryPlanner"))

namespace DeleteManyTool

/-- `DeleteManyTool.execute`: ensure connection, optionally run the index
check with the synthesized delete explain thunk, then run the real
`deleteMany` and format the `Deleted N document(s)` response. -/
def execute {Doc : Type} (ext : Externals Doc) (cfg : UserConfig) (provider : Provider Doc)
    (database collection : String) (filter : Option Doc) :
    List (Event Doc) × CallToolResult :=
  let inspection : List (Event Doc) :=
    if cfg.indexCheck then
      Event.indexCheckInvoked database collection "deleteMany" ::
        checkIndexUsage ext database collection "deleteMany"
          (deleteManyExplainThunk ext provider database collection filter)
    else []
  let deletedCount := provider.deleteManyCount database collection filter
  (Event.ensureConnected :: inspection ++ [Event.deleteManyCall database collection filter],
   { content := [{ text := "Deleted `" ++ toString deletedCount ++
        "` document(s) from collection \"" ++ collection ++ "\"", type := "text" }] })

end DeleteManyTool

namespace FindTool

/-- `FindTool.execute`: ensure connection, optionally run the index check
with a `find().explain("queryPlanner")` thunk, then run the real find and
format the summary line plus one EJSON block per returned document. -/
def execute {Doc : Type} (ext : Externals Doc) (cfg : UserConfig) (provider : Provider Doc)
    (database collection : String) (filter projection : Option Doc)
    (limit : Nat) (sort : Option Doc) :
    List (Event Doc) × CallToolResult :=
  let opts : FindOpts Doc := { projection := projection, limit := limit, sort := sort }
  let inspection : List (Event Doc) :=
    if cfg.indexCheck then
      Event.indexCheckInvoked database collection "find" ::
        checkIndexUsage ext database collection "find"
          (fun _ => ([Event.findExplain database collection filter opts "queryPlanner"],
                     provider.findExplainResult database collection filter opts))
    else []
  let documents := provider.findResult database collection filter opts
  (Event.ensureConnected :: inspection ++ [Event.findToArray database collection filter opts],
   { content :=
      { text := "Found " ++ toString documents.length ++
          " documents in the collection \"" ++ collection ++ "\":", type := "text" } ::
        documents.map (fun doc => { text := ext.ejsonStringify doc, type := "text" }) })

end FindTool

namespace AggregateTool

/-- `AggregateTool.execute`: ensure connection, optionally run the index
check with an `aggregate().explain("queryPlanner")` thunk, then run the
real aggregation and format the summary line plus one EJSON block per
returned document. -/
def execute {Doc : Type} (ext : Externals Doc) (cfg : UserConfig) (provider : Provider Doc)
    (database collection : String) (pipeline : List Doc) :
    List (Event Doc) × CallToolResult :=
  let inspection : List (Event Doc) :=
    if cfg.indexCheck then
      Event.indexCheckInvoked database collection "aggregate" ::
        checkIndexUsage ext database collection "aggregate"
          (fun _ => ([Event.aggregateExplain database collection pipeline "queryPlanner"],
                     provider.aggregateExplainResult database collection pipeline))
    else []
  let documents := provider.aggregateResult database collection pipeline
  (Event.ensureConnected :: inspection ++ [Event.aggregateToArray database collection pipeline],
   { content :=
      { text := "Found " ++ toString documents.length ++
          " documents in the collection \"" ++ collection ++ "\":", type := "text" } ::
        documents.map (fun doc => { text := ext.ejsonStringify doc, type := "text" }) })

end AggregateTool

/-- The tagged union of explain-dispatcher method entries
(`z.discriminatedUnion` over aggregate, find and count). -/
inductive ExplainMethod (Doc : Type) where
  | aggregate (pipeline : List Doc)
  | find (filter projection : Option Doc) (limit : Nat) (sort : Option Doc)
  | count (query : Option Doc)
deriving DecidableEq, Repr

/-- The discriminant (`method.name`) of a method entry. -/
def ExplainMethod.methodName {Doc : Type} : ExplainMethod Doc → String
  | .aggregate _ => "aggregate"
  | .find _ _ _ _ => "find"
  | .count _ => "count"

/-- The error thrown by `ExplainTool.execute` when `methods[0]` is
undefined. -/
def noMethodMessage : String :=
  "No method provided. Expected one of the following: `aggregate`, `find`, or `count`"

/-- The text preamble of a successful explain-dispatcher response. -/
def explainPreamble (methodName database collection : String) : String :=
  "Here is some information about the winning plan chosen by the query optimizer " ++
  "for running the given `" ++ methodName ++ "` operation in \"" ++ database ++ "." ++
  collection ++ "\". This information can be used to understand how the query was " ++
  "executed and to optimize the query performance."

namespace ExplainTool

/-- `ExplainTool.execute`: ensure connection, take `methods[0]`, throw
`noMethodMessage` when it is undefined, otherwise dispatch the matching
explain at queryPlanner verbosity and format the preamble plus the
JSON-serialized explain document. -/
def execute {Doc : Type} (ext : Externals Doc) (provider : Provider Doc)
    (database collection : String) (methods : List (ExplainMethod Doc)) :
    List (Event Doc) × Except String CallToolResult :=
  match methods.head? with
  | none => ([Event.ensureConnected], Except.error noMethodMessage)
  | some method =>
      let (dispatchEvent, explainResult) :=
        match method with
        | .aggregate pipeline =>
            (Event.aggregateExplain database collection pipeline "queryPlanner",
             provider.aggregateExplainResult database collection pipeline)
        | .find filter projection limit sort =>
            let opts : FindOpts Doc := { projection := projection, limit := limit, sort := sort }
            (Event.findExplain database collection filter opts "queryPlanner",
             provider.findExplainResult database collection filter opts)
        | .count query =>
            (Event.runCommandWithCheck database
               (RunCommand.explainCount collection query "queryPlanner"),
             provider.runCommandResult database
               (RunCommand.explainCount collection query "queryPlanner"))
      match explainResult with
      | Except.error e => ([Event.ensureConnected, dispatchEvent], Except.error e)
      | Except.ok result =>
          ([Event.ensureConnected, dispatchEvent],
           Except.ok { content :=
             [{ text := explainPreamble method.methodName database collection, type := "text" },
              { text := ext.jsonStringify result, type := "text" }] })

end ExplainTool

/-- The abstract log levels of the logging subsystem
(`LoggingMessageNotification` level vocabulary). -/
inductive LogLevel where
  | debug | info | notice | warning | error | critical | alert | emergency
deriving DecidableEq, Repr

/-- The lowercase wire name of a level, as used by the sinks. -/
def LogLevel.levelName : LogLevel → String
  | .debug => "debug"
  | .info => "info"
  | .notice => "notice"
  | .warning => "warning"
  | .error => "error"
  | .critical => "critical"
  | .alert => "alert"
  | .emergency => "emergency"

/-- One delivery performed by a sink: a console line on the error stream, a
disk write through the MongoDB log writer, or a live-transport (MCP)
logging message. -/
inductive SinkOutput where
  | console (line : String)
  | disk (severity : String) (component : String) (id : Nat) (context : String) (message : String)
  | mcpMessage (level : LogLevel) (data : String)
deriving DecidableEq, Repr

/-- `DiskLogger.mapToMongoDBLogLevel`: translate the abstract level set to
the MongoDB log writer severity vocabulary. -/
def mapToMongoDBLogLevel : LogLevel → String
  | .info => "info"
  | .warning => "warn"
  | .error => "error"
  | .notice => "debug"
  | .debug => "debug"
  | .critical => "fatal"
  | .alert => "fatal"
  | .emergency => "fatal"

namespace ConsoleLogger

/-- `ConsoleLogger.log`: redact the message, then print one formatted line
to the error stream. -/
def log (redact : String → String) (level : LogLevel) (id : Nat)
    (context message : String) : List SinkOutput :=
  [SinkOutput.console ("[" ++ level.levelName.toUpper ++ "] " ++ toString id ++
    " - " ++ context ++ ": " ++ redact message)]

end ConsoleLogger

namespace DiskLogger

/-- `DiskLogger.log`: redact the message, map the level, then write through
the MongoDB log writer under the `MONGODB-MCP` component. -/
def log (redact : String → String) (level : LogLevel) (id : Nat)
    (context message : String) : List SinkOutput :=
  [SinkOutput.disk (mapToMongoDBLogLevel level) "MONGODB-MCP" id context (redact message)]

end DiskLogger

namespace McpLogger

/-- `McpLogger.log`: deliver a logging message over the live transport only
while the server is connected; with no attached consumer it returns with no
delivery and no error.  The message is interpolated into the data field
as-is. -/
def log (connected : Bool) (level : LogLevel) (_id : Nat)
    (context message : String) : List SinkOutput :=
  if connected then
    [SinkOutput.mcpMessage level ("[" ++ context ++ "]: " ++ message)]
  else []

end McpLogger

/-- A configured sink of the composite logger. -/
inductive Sink where
  | console
  | disk
  | mcp (connected : Bool)
deriving DecidableEq, Repr

/-- Dispatch one log record to one sink. -/
def Sink.log (redact : String → String) (s : Sink) (level : LogLevel) (id : Nat)
    (context message : String) : List SinkOutput :=
  match s with
  | .console => ConsoleLogger.log redact level id context message
  | .disk => DiskLogger.log redact level id context message
  | .mcp connected => McpLogger.log connected level id context message

namespace CompositeLogger

/-- `CompositeLogger.log`: fan the record out to every configured sink, in
order. -/
def log (redact : String → String) (loggers : List Sink) (level : LogLevel)
    (id : Nat) (context message : String) : List SinkOutput :=
  match loggers with
  | [] => []
  | s :: rest => s.log redact level id context message ++ log redact rest level id context message

end CompositeLogger

/-- `LogId.atlasIpAccessListAdded` (`mongoLogId(1_001_008)`). -/
def atlasIpAccessListAdded : Nat := 1001008

/-- `LogId.atlasIpAccessListAddFailure` (`mongoLogId(1_001_009)`). -/
def atlasIpAccessListAddFailure : Nat := 1001009

/-- A log record emitted by the access-list helper. -/
structure LogEvt where
  level : LogLevel
  id : Nat
  context : String
  message : String
deriving DecidableEq, Repr

/-- An error raised by the Atlas API client; `isApiClientError` models the
`instanceof ApiClientError` test and `status` the optional
`response.status`. -/
structure ApiError where
  isApiClientError : Bool
  status : Option Nat
  message : String
deriving DecidableEq, Repr

/-- One entry of the project IP access list. -/
structure AccessListEntry where
  groupId : String
  ipAddress : String
  comment : String
deriving DecidableEq, Repr

/-- `DEFAULT_ACCESS_LIST_COMMENT` from `accessListUtils.ts`. -/
def DEFAULT_ACCESS_LIST_COMMENT : String :=
  "Added by MongoDB MCP Server to enable tool access"

/-- `JSON.stringify` of an access-list entry, field order as constructed. -/
def AccessListEntry.toJson (e : AccessListEntry) : String :=
  "\x7b\"groupId\":\"" ++ e.groupId ++ "\",\"ipAddress\":\"" ++ e.ipAddress ++
    "\",\"comment\":\"" ++ e.comment ++ "\"\x7d"

/-- `makeCurrentIpAccessListEntry`, applied to the already-obtained current
IPv4 address. -/
def makeCurrentIpAccessListEntry (currentIpv4Address projectId comment : String) :
    AccessListEntry :=
  { groupId := projectId, ipAddress := currentIpv4Address, comment := comment }

/-- Debug message logged after a successful creation. -/
def ipAccessListCreatedMessage (entry : AccessListEntry) : String :=
  "IP access list created: " ++ entry.toJson

/-- Debug message logged on a 409 conflict. -/
def ipAlreadyPresentMessage (ipAddress projectId : String) : String :=
  "IP address " ++ ipAddress ++ " is already present in the access list for project " ++
    projectId ++ "."

/-- Warning message logged on any other creation failure. -/
def ipAccessListAddFailureMessage (errMessage : String) : String :=
  "Error adding IP access list: " ++ errMessage

/-- `ensureCurrentIpInAccessList`: obtain the current IP (failures here
propagate), build the entry, attempt creation on the stateful API client;
a 409 `ApiClientError` is logged at debug and swallowed, any other
creation failure is logged at warning and swallowed.  Returns the new
client state and, on the non-throwing paths, the log records emitted. -/
def ensureCurrentIpInAccessList {σ : Type}
    (getIpInfo : Except ApiError String)
    (createProjectIpAccessList : σ → List AccessListEntry → σ × Except ApiError Unit)
    (projectId : String) (s : σ) : σ × Except ApiError (List LogEvt) :=
  match getIpInfo with
  | Except.error e => (s, Except.error e)
  | Except.ok currentIpv4Address =>
      let entry := makeCurrentIpAccessListEntry currentIpv4Address projectId
        DEFAULT_ACCESS_LIST_COMMENT
      match createProjectIpAccessList s [entry] with
      | (s2, Except.ok _) =>
          (s2, Except.ok [LogEvt.mk LogLevel.debug atlasIpAccessListAdded
            "accessListUtils" (ipAccessListCreatedMessage entry)])
      | (s2, Except.error err) =>
          if err.isApiClientError && err.status == some 409 then
            (s2, Except.ok [LogEvt.mk LogLevel.debug atlasIpAccessListAdded
              "accessListUtils" (ipAlreadyPresentMessage entry.ipAddress projectId)])
          else
            (s2, Except.ok [LogEvt.mk LogLevel.warning atlasIpAccessListAddFailure
              "accessListUtils" (ipAccessListAddFailureMessage err.message)])

/-- State of the backing store model: the entries currently in the
project's access list. -/
structure AtlasStoreState where
  entries : List AccessListEntry
deriving DecidableEq, Repr

/-- Modelled from the spec: the Atlas backing store is an external
collaborator; per the spec's idempotence property it reports an HTTP
409-equivalent conflict when an entry it already holds is created again,
and otherwise appends the new entries. -/
def AtlasStoreState.createProjectIpAccessList (s : AtlasStoreState)
    (body : List AccessListEntry) : AtlasStoreState × Except ApiError Unit :=
  if body.any (fun e => s.entries.contains e) then
    (s, Except.error { isApiClientError := true, status := some 409, message := "Conflict" })
  else
    ({ entries := s.entries ++ body }, Except.ok ())

/-- Concrete externals over `Nat` documents, used to instantiate the
generic theorems at a computable input. -/
def natExternals : Externals Nat :=
  { emptyDoc := 0, ejsonStringify := toString, jsonStringify := toString,
    usesIndex := fun _ => true }

/-- Concrete provider behaviour over `Nat` documents, used to instantiate
the generic theorems at a computable input. -/
def natProvider : Provider Nat :=
  { findResult := fun _ _ _ _ => [1, 2, 3],
    aggregateResult := fun _ _ _ => [4, 5],
    deleteManyCount := fun _ _ _ => 2,
    findExplainResult := fun _ _ _ _ => Except.ok 7,
    aggregateExplainResult := fun _ _ _ => Except.ok 8,
    runCommandResult := fun _ _ => Except.ok 9 }

set_option maxRecDepth 4096 in
/-- C3: invoking the explain dispatcher with an empty method array fails
with the validation error whose message names `aggregate`, `find` and
`count`, and no explain sub-operation is dispatched (the trace holds only
the connection-ensure, no explain event). -/
theorem explain_empty_method_rejected {Doc : Type} (ext : Externals Doc)
    (provider : Provider Doc) (database collection : String) :
    ExplainTool.execute ext provider database collection ([] : List (ExplainMethod Doc)) =
      ([Event.ensureConnected], Except.error noMethodMessage)
    ∧ ("aggregate".data <:+: noMethodMessage.data)
    ∧ ("find".data <:+: noMethodMessage.data)
    ∧ ("count".data <:+: noMethodMessage.data)
    ∧ List.countP Event.isExplain
        (ExplainTool.execute ext provider database collection
          ([] : List (ExplainMethod Doc))).1 = 0 :=
  ⟨rfl, by decide, by decide, by decide, rfl⟩

/-- C4 counterexample: a two-entry method array is not rejected — the
dispatcher succeeds, runs the explain of the first entry only, and ignores
the second entry entirely. -/
theorem explain_multi_method_counterexample :
    (ExplainTool.execute natExternals natProvider "db" "coll"
        [ExplainMethod.aggregate ([] : List Nat), ExplainMethod.count none]).2 =
      Except.ok { content :=
        [{ text := explainPreamble "aggregate" "db" "coll", type := "text" },
         { text := "8", type := "text" }] }
    ∧ (ExplainTool.execute natExternals natProvider "db" "coll"
        [ExplainMethod.aggregate ([] : List Nat), ExplainMethod.count none]).1 =
      [Event.ensureConnected, Event.aggregateExplain "db" "coll" [] "queryPlanner"] :=
  ⟨rfl, rfl⟩

/-- C4 amended: the dispatcher never rejects a non-singleton non-empty
method array; it behaves exactly as if only the first entry had been
supplied, silently ignoring the remaining entries. -/
theorem explain_takes_first_method {Doc : Type} (ext : Externals Doc)
    (provider : Provider Doc) (database collection : String)
    (m : ExplainMethod Doc) (rest : List (ExplainMethod Doc)) :
    ExplainTool.execute ext provider database collection (m :: rest) =
      ExplainTool.execute ext provider database collection [m] :=
  rfl

/-- C5 counterexample: on an empty method array the connection-ensure step
is performed — its event is in the trace — and only then is the validation
error raised, so the error is not raised before the connection-ensure. -/
theorem explain_empty_method_connects_counterexample :
    ExplainTool.execute natExternals natProvider "db" "coll"
        ([] : List (ExplainMethod Nat)) =
      ([Event.ensureConnected], Except.error noMethodMessage)
    ∧ Event.ensureConnected ∈ (ExplainTool.execute natExternals natProvider "db" "coll"
        ([] : List (ExplainMethod Nat))).1 :=
  ⟨rfl, by decide⟩

/-- C5 amended: with an empty method array, the validation error is raised
after the connection-ensure step but before any explain sub-operation is
dispatched: the trace is exactly the connection-ensure event. -/
theorem explain_empty_method_error_after_connect {Doc : Type} (ext : Externals Doc)
    (provider : Provider Doc) (database collection : String) :
    ExplainTool.execute ext provider database collection ([] : List (ExplainMethod Doc)) =
      ([Event.ensureConnected], Except.error noMethodMessage) :=
  rfl

/-- C7: a successful find-tool invocation returns the summary line
`Found N documents in the collection "name":` followed by exactly one
EJSON-serialized block per returned document, in driver-returned order. -/
theorem find_response_format {Doc : Type} (ext : Externals Doc) (cfg : UserConfig)
    (provider : Provider Doc) (database collection : String)
    (filter projection : Option Doc) (limit : Nat) (sort : Option Doc) :
    (FindTool.execute ext cfg provider database collection filter projection limit sort).2 =
      { content :=
          { text := "Found " ++
              toString (provider.findResult database collection filter
                { projection := projection, limit := limit, sort := sort }).length ++
              " documents in the collection \"" ++ collection ++ "\":", type := "text" } ::
            (provider.findResult database collection filter
                { projection := projection, limit := limit, sort := sort }).map
              (fun doc => { text := ext.ejsonStringify doc, type := "text" }) } :=
  rfl

/-- A concrete redaction function used to exhibit the unredacted MCP
delivery. -/
def redactAll : String → String := fun _ => "<redacted>"

/-- C6 counterexample: with the redaction function that maps every message
to `<redacted>`, the live-transport (MCP) sink of the composite logger
delivers the raw message `secret password` — not its redacted form — so
not every sink passes the message through the redaction function. -/
theorem mcp_delivery_unredacted_counterexample :
    Sink.log redactAll (Sink.mcp true) LogLevel.info 1 "ctx" "secret password" =
      [SinkOutput.mcpMessage LogLevel.info "[ctx]: secret password"]
    ∧ "[ctx]: secret password" ≠ "[ctx]: " ++ redactAll "secret password" :=
  ⟨rfl, by decide⟩

/-- C6 amended: the console and disk sinks pass the message through the
redaction function before delivery; the live-transport (MCP) sink delivers
the message unredacted — its delivery is independent of the redaction
function. -/
theorem sink_redaction (redact : String → String) (level : LogLevel) (id : Nat)
    (context message : String) :
    Sink.log redact Sink.console level id context message =
      [SinkOutput.console ("[" ++ level.levelName.toUpper ++ "] " ++ toString id ++
        " - " ++ context ++ ": " ++ redact message)]
    ∧ Sink.log redact Sink.disk level id context message =
      [SinkOutput.disk (mapToMongoDBLogLevel level) "MONGODB-MCP" id context (redact message)]
    ∧ Sink.log redact (Sink.mcp true) level id context message =
      [SinkOutput.mcpMessage level ("[" ++ context ++ "]: " ++ message)]
    ∧ (∀ redactOther : String → String,
        Sink.log redact (Sink.mcp true) level id context message =
          Sink.log redactOther (Sink.mcp true) level id context message) :=
  ⟨rfl, rfl, rfl, fun _ => rfl⟩

/-- C8: an MCP sink with no attached consumer returns with no delivery and
no error, and the composite logger still dispatches the record to every
other configured sink: removing the unconnected MCP sink from the sink
list leaves the delivered outputs unchanged. -/
theorem composite_survives_unconnected_mcp (redact : String → String)
    (pre rest : List Sink) (level : LogLevel) (id : Nat) (context message : String) :
    McpLogger.log false level id context message = []
    ∧ CompositeLogger.log redact (pre ++ Sink.mcp false :: rest) level id context message =
        CompositeLogger.log redact pre level id context message ++
          CompositeLogger.log redact rest level id context message := by
  refine ⟨rfl, ?_⟩
  induction pre with
  | nil => simp [CompositeLogger.log, Sink.log, McpLogger.log]
  | cons s pre ih => simp [CompositeLogger.log, ih, List.append_assoc]

/-- C2: with the index-check flag disabled, none of the find, aggregate and
delete-many tools calls the index-usage inspector or any explain thunk:
each trace is exactly the connection-ensure followed by the real operation,
with zero explain events and zero inspector invocations. -/
theorem index_check_disabled_no_explain {Doc : Type} (ext : Externals Doc)
    (cfg : UserConfig) (provider : Provider Doc) (database collection : String)
    (filter projection : Option Doc) (limit : Nat) (sort : Option Doc)
    (pipeline : List Doc) (h : cfg.indexCheck = false) :
    ((FindTool.execute ext cfg provider database collection filter projection limit sort).1 =
      [Event.ensureConnected, Event.findToArray database collection filter
        { projection := projection, limit := limit, sort := sort }])
    ∧ ((AggregateTool.execute ext cfg provider database collection pipeline).1 =
      [Event.ensureConnected, Event.aggregateToArray database collection pipeline])
    ∧ ((DeleteManyTool.execute ext cfg provider database collection filter).1 =
      [Event.ensureConnected, Event.deleteManyCall database collection filter])
    ∧ List.countP Event.isExplain
        (FindTool.execute ext cfg provider database collection filter projection limit sort).1 = 0
    ∧ List.countP Event.isExplain
        (AggregateTool.execute ext cfg provider database collection pipeline).1 = 0
    ∧ List.countP Event.isExplain
        (DeleteManyTool.execute ext cfg provider database collection filter).1 = 0
    ∧ List.countP Event.isIndexCheckInvoked
        (FindTool.execute ext cfg provider database collection filter projection limit sort).1 = 0
    ∧ List.countP Event.isIndexCheckInvoked
        (AggregateTool.execute ext cfg provider database collection pipeline).1 = 0
    ∧ List.countP Event.isIndexCheckInvoked
        (DeleteManyTool.execute ext cfg provider database collection filter).1 = 0 := by
  simp only [FindTool.execute, AggregateTool.execute, DeleteManyTool.execute, h,
    if_false, Bool.false_eq_true, List.nil_append]
  refine ⟨rfl, rfl, rfl, ?_, ?_, ?_, ?_, ?_, ?_⟩ <;>
    simp [List.countP_cons, Event.isExplain, Event.isIndexCheckInvoked]

/-- C2 witness: the theorem instantiated at a concrete configuration with
the index check disabled. -/
theorem index_check_disabled_no_explain_witness :
    (FindTool.execute natExternals { indexCheck := false } natProvider "db" "coll"
        none none 10 none).1 =
      [Event.ensureConnected, Event.findToArray "db" "coll" none
        { projection := none, limit := 10, sort := none }] :=
  (index_check_disabled_no_explain natExternals { indexCheck := false } natProvider
    "db" "coll" none none 10 none ([2] : List Nat) rfl).1

/-- C1: with index checking enabled, the delete-many explain thunk performs
exactly one read-only `runCommandWithCheck` carrying an `explain` wrapper
of the delete command at queryPlanner verbosity and no mutation; the
inspection segment contains no mutation either, and the real `deleteMany`
runs exactly once, after the whole inspection segment. -/
theorem delete_many_inspection_readonly {Doc : Type} (ext : Externals Doc)
    (cfg : UserConfig) (provider : Provider Doc) (database collection : String)
    (filter : Option Doc) (h : cfg.indexCheck = true) :
    (deleteManyExplainThunk ext provider database collection filter ()).1 =
      [Event.runCommandWithCheck database
        (RunCommand.explainDelete collection
          [{ q := filter.getD ext.emptyDoc, limit := 0 }] "queryPlanner")]
    ∧ List.countP Event.isMutation
        (deleteManyExplainThunk ext provider database collection filter ()).1 = 0
    ∧ (DeleteManyTool.execute ext cfg provider database collection filter).1 =
        Event.ensureConnected :: Event.indexCheckInvoked database collection "deleteMany" ::
          (checkIndexUsage ext database collection "deleteMany"
            (deleteManyExplainThunk ext provider database collection filter) ++
           [Event.deleteManyCall database collection filter])
    ∧ List.countP Event.isMutation
        (checkIndexUsage ext database collection "deleteMany"
          (deleteManyExplainThunk ext provider database collection filter)) = 0
    ∧ List.countP Event.isDeleteManyCall
        (DeleteManyTool.execute ext cfg provider database collection filter).1 = 1 := by
  cases hr : provider.runCommandResult database
      (RunCommand.explainDelete collection
        [{ q := filter.getD ext.emptyDoc, limit := 0 }] "queryPlanner") with
  | error e =>
      simp [DeleteManyTool.execute, checkIndexUsage, deleteManyExplainThunk, h, hr,
        Event.isMutation, Event.isDeleteManyCall, List.countP_cons, List.countP_append]
  | ok plan =>
      cases hu : ext.usesIndex plan <;>
        simp [DeleteManyTool.execute, checkIndexUsage, deleteManyExplainThunk, h, hr, hu,
          Event.isMutation, Event.isDeleteManyCall, List.countP_cons, List.countP_append]

/-- C1 witness: the thunk-trace component of the theorem at a concrete
configuration with index checking enabled. -/
theorem delete_many_inspection_readonly_witness :
    (deleteManyExplainThunk natExternals natProvider "db" "coll" (none : Option Nat) ()).1 =
      [Event.runCommandWithCheck "db"
        (RunCommand.explainDelete "coll" [{ q := 0, limit := 0 }] "queryPlanner")] :=
  (delete_many_inspection_readonly natExternals { indexCheck := true } natProvider
    "db" "coll" none rfl).1

/-- C9: when the entry is not yet in the backing store, the first
`ensureCurrentIpInAccessList` call appends exactly that entry (one creation
side effect) and returns without error; the second identical call, to
which the store reports a 409 conflict, is a non-error no-op: the store is
unchanged and the helper returns normally, logging at debug. -/
theorem ensure_ip_idempotent (ip projectId : String) (s0 : AtlasStoreState)
    (h : makeCurrentIpAccessListEntry ip projectId DEFAULT_ACCESS_LIST_COMMENT ∉ s0.entries) :
    (ensureCurrentIpInAccessList (Except.ok ip) AtlasStoreState.createProjectIpAccessList
        projectId s0).1.entries =
      s0.entries ++ [makeCurrentIpAccessListEntry ip projectId DEFAULT_ACCESS_LIST_COMMENT]
    ∧ (ensureCurrentIpInAccessList (Except.ok ip) AtlasStoreState.createProjectIpAccessList
        projectId s0).2 =
      Except.ok [LogEvt.mk LogLevel.debug atlasIpAccessListAdded "accessListUtils"
        (ipAccessListCreatedMessage
          (makeCurrentIpAccessListEntry ip projectId DEFAULT_ACCESS_LIST_COMMENT))]
    ∧ (ensureCurrentIpInAccessList (Except.ok ip) AtlasStoreState.createProjectIpAccessList
        projectId
        (ensureCurrentIpInAccessList (Except.ok ip) AtlasStoreState.createProjectIpAccessList
          projectId s0).1).1 =
      (ensureCurrentIpInAccessList (Except.ok ip) AtlasStoreState.createProjectIpAccessList
        projectId s0).1
    ∧ (ensureCurrentIpInAccessList (Except.ok ip) AtlasStoreState.createProjectIpAccessList
        projectId
        (ensureCurrentIpInAccessList (Except.ok ip) AtlasStoreState.createProjectIpAccessList
          projectId s0).1).2 =
      Except.ok [LogEvt.mk LogLevel.debug atlasIpAccessListAdded "accessListUtils"
        (ipAlreadyPresentMessage ip projectId)] := by
  simp only [makeCurrentIpAccessListEntry] at h
  simp [ensureCurrentIpInAccessList, AtlasStoreState.createProjectIpAccessList,
    makeCurrentIpAccessListEntry, h, Except.isOk]

/-- C9 witness: the second call on the store produced by the first call,
starting from the empty store, is a non-error no-op logged at debug. -/
theorem ensure_ip_idempotent_witness :
    (ensureCurrentIpInAccessList (Except.ok "127.0.0.1")
        AtlasStoreState.createProjectIpAccessList "projectId"
        (ensureCurrentIpInAccessList (Except.ok "127.0.0.1")
          AtlasStoreState.createProjectIpAccessList "projectId"
          { entries := [] }).1).2 =
      Except.ok [LogEvt.mk LogLevel.debug atlasIpAccessListAdded "accessListUtils"
        (ipAlreadyPresentMessage "127.0.0.1" "projectId")] :=
  (ensure_ip_idempotent "127.0.0.1" "projectId" { entries := [] }
    (List.not_mem_nil _)).2.2.2

/-- C10: once the current IP has been obtained, the helper never throws:
any creation outcome yields a non-error return — a 409 `ApiClientError` is
logged at debug and every other creation failure at warning — while a
failure obtaining the IP propagates unchanged to the caller. -/
theorem ensure_ip_error_containment {σ : Type} (ip projectId : String)
    (create : σ → List AccessListEntry → σ × Except ApiError Unit) (s : σ) :
    (ensureCurrentIpInAccessList (Except.ok ip) create projectId s).2.isOk = true
    ∧ (∀ (s2 : σ) (err : ApiError),
        create s [makeCurrentIpAccessListEntry ip projectId DEFAULT_ACCESS_LIST_COMMENT] =
          (s2, Except.error err) →
        ((err.isApiClientError && err.status == some 409) = true →
          ensureCurrentIpInAccessList (Except.ok ip) create projectId s =
            (s2, Except.ok [LogEvt.mk LogLevel.debug atlasIpAccessListAdded "accessListUtils"
              (ipAlreadyPresentMessage ip projectId)]))
        ∧ ((err.isApiClientError && err.status == some 409) = false →
          ensureCurrentIpInAccessList (Except.ok ip) create projectId s =
            (s2, Except.ok [LogEvt.mk LogLevel.warning atlasIpAccessListAddFailure
              "accessListUtils" (ipAccessListAddFailureMessage err.message)])))
    ∧ (∀ e : ApiError,
        ensureCurrentIpInAccessList (Except.error e) create projectId s =
          (s, Except.error e)) := by
  refine ⟨?_, ?_, fun e => rfl⟩
  · rcases hc : create s
        [makeCurrentIpAccessListEntry ip projectId DEFAULT_ACCESS_LIST_COMMENT] with ⟨s2, r⟩
    cases r with
    | ok u => simp [ensureCurrentIpInAccessList, hc, Except.isOk, Except.toBool]
    | error err =>
        cases h409 : err.isApiClientError && err.status == some 409 <;>
          simp [ensureCurrentIpInAccessList, hc, h409, Except.isOk, Except.toBool]
  · intro s2 err hc
    simp only [makeCurrentIpAccessListEntry] at hc
    constructor
    · intro h409
      simp [ensureCurrentIpInAccessList, makeCurrentIpAccessListEntry, hc, h409]
    · intro h409
      simp [ensureCurrentIpInAccessList, makeCurrentIpAccessListEntry, hc, h409]

/-- C10 witness: a non-409 creation failure is contained and logged at
warning while the helper returns normally. -/
theorem ensure_ip_error_containment_witness :
    ensureCurrentIpInAccessList (Except.ok "127.0.0.1")
        (fun (s : Unit) _ => (s, Except.error (ApiError.mk false none "boom")))
        "projectId" () =
      ((), Except.ok [LogEvt.mk LogLevel.warning atlasIpAccessListAddFailure
        "accessListUtils" (ipAccessListAddFailureMessage "boom")]) :=
  ((ensure_ip_error_containment "127.0.0.1" "projectId"
      (fun s _ => (s, Except.error (ApiError.mk false none "boom"))) ()).2.1
    () (ApiError.mk false none "boom") rfl).2 rfl

end MongoMcp
